import Mathlib

/-!
Verification of the chaos-experimentation terminator monitor and the rtds
runtime-discovery module of this repository.

The Go sources embedded here:
* `terminator.go` (monitor, trackingGauge): the outer loop `Run`, the spawn
  logic `monitorNewExperiments`, the per-experiment inner loop
  `monitorSingleExperiment`, and the `trackingGauge` helper.
* the rtds test file (`newTestServer`, `TestServerStats`, `TestResourceTTL`):
  the configuration it constructs and the behaviours it asserts.

Machine integers are modelled as `Nat` with explicit `% 2^32` where the Go
code uses wrapping `uint32` arithmetic.  Fallible or effectful calls
(`ShouldTerminate`, `store.TerminateExperiment`) are modelled by explicit
outcome values threaded through the state.
-/

namespace Terminator

/-- Outcome of one invocation of a `TerminationCriteria.ShouldTerminate` call
(`terminator.go` line 17: `ShouldTerminate(experimentStarted time.Time, config interface{}) error`).
The Go method returns an `error`: `ok` is a `nil` return, `err s` is a non-nil
error whose `Error()` string is `s`.  `panicOutcome` models the call panicking
instead of returning. -/
inductive CriterionOutcome where
  | ok : CriterionOutcome
  | err : String → CriterionOutcome
  | panicOutcome : CriterionOutcome
deriving DecidableEq, Repr

/-- Observable result of one tick of the inner loop `monitorSingleExperiment`
(`terminator.go` lines 114-141): the reasons passed to
`store.TerminateExperiment` in call order, the number of
`terminationCount.Inc(1)` increments, the `terminated` flag at the end of the
tick, whether the tick aborted with an uncaught panic, and how many
`ShouldTerminate` invocations were performed. -/
structure TickResult where
  calls : List String
  termIncs : Nat
  terminated : Bool
  panicked : Bool
  evaluated : Nat
deriving DecidableEq, Repr

/-- The criteria loop of `monitorSingleExperiment` (`terminator.go` lines
124-137).  `outcomes` lists, per configured criterion in order, what its
`ShouldTerminate` call does this tick; `storeReply n` tells whether the `n`-th
`store.TerminateExperiment` call of this tick returns a nil error (success).
A non-nil error from `ShouldTerminate` (line 127) triggers a
`store.TerminateExperiment(ctx, e.Id, err.Error())` call (line 128); on store
success the counter is incremented and `terminated` is set (lines 133-134);
the loop then proceeds to the next criterion — there is no `break`.  A panic
propagates: there is no `recover` on the path, so the loop aborts. -/
def criteriaLoop (storeReply : Nat → Bool) :
    List CriterionOutcome → Nat → TickResult
  | [], _ =>
    { calls := [], termIncs := 0, terminated := false, panicked := false,
      evaluated := 0 }
  | CriterionOutcome.ok :: rest, nCalls =>
    let r := criteriaLoop storeReply rest nCalls
    { r with evaluated := r.evaluated + 1 }
  | CriterionOutcome.panicOutcome :: _, _ =>
    { calls := [], termIncs := 0, terminated := false, panicked := true,
      evaluated := 1 }
  | CriterionOutcome.err reason :: rest, nCalls =>
    let success := storeReply nCalls
    let r := criteriaLoop storeReply rest (nCalls + 1)
    { calls := reason :: r.calls,
      termIncs := (if success then 1 else 0) + r.termIncs,
      terminated := success || r.terminated,
      panicked := r.panicked,
      evaluated := r.evaluated + 1 }

/-- One `ticker.C` tick of `monitorSingleExperiment` (`terminator.go` lines
116-137).  When the `terminated` flag is already set the tick is a no-op
(`continue`, lines 117-123): no criterion is evaluated and no store call is
made.  Otherwise the criteria loop runs. -/
def monitorTick (terminated : Bool) (outcomes : List CriterionOutcome)
    (storeReply : Nat → Bool) : TickResult :=
  if terminated then
    { calls := [], termIncs := 0, terminated := true, panicked := false,
      evaluated := 0 }
  else criteriaLoop storeReply outcomes 0

/-- A run of consecutive ticks of `monitorSingleExperiment`, threading the
`terminated` flag (`terminator.go` line 112).  Each element of `ticks` gives
the criteria outcomes and store replies for one tick.  The list ending models
the context being cancelled (line 138): the loop itself only exits via
`ctx.Done()`.  An uncaught panic kills the goroutine, so no further tick
runs after a panicked one. -/
def monitorTicks (terminated : Bool) :
    List (List CriterionOutcome × (Nat → Bool)) → List TickResult
  | [] => []
  | (outcomes, storeReply) :: rest =>
    let r := monitorTick terminated outcomes storeReply
    if r.panicked then [r]
    else r :: monitorTicks r.terminated rest

theorem criteriaLoop_calls_map_err (storeReply : Nat → Bool)
    (rs : List String) :
    ∀ n, (criteriaLoop storeReply (rs.map CriterionOutcome.err) n).calls = rs := by
  induction rs with
  | nil => intro n; rfl
  | cons r rest ih =>
    intro n
    simp only [List.map_cons, criteriaLoop, ih (n + 1)]

theorem criteriaLoop_termIncs_map_err (rs : List String) :
    ∀ n, (criteriaLoop (fun _ => true) (rs.map CriterionOutcome.err) n).termIncs
      = rs.length := by
  induction rs with
  | nil => intro n; rfl
  | cons r rest ih =>
    intro n
    simp [criteriaLoop, ih (n + 1)]
    omega

theorem criteriaLoop_panic_aborts (storeReply : Nat → Bool)
    (pre post : List CriterionOutcome)
    (h : CriterionOutcome.panicOutcome ∉ pre) :
    ∀ n,
      (criteriaLoop storeReply
        (pre ++ CriterionOutcome.panicOutcome :: post) n).panicked = true ∧
      (criteriaLoop storeReply
        (pre ++ CriterionOutcome.panicOutcome :: post) n).evaluated
        = pre.length + 1 := by
  induction pre with
  | nil => intro n; exact ⟨rfl, rfl⟩
  | cons o rest ih =>
    intro n
    have ho : o ≠ CriterionOutcome.panicOutcome := by
      intro he; exact h (he ▸ List.mem_cons_self o rest)
    have hrest : CriterionOutcome.panicOutcome ∉ rest := by
      intro hm; exact h (List.mem_cons_of_mem o hm)
    cases o with
    | ok =>
      have := ih hrest n
      simp [criteriaLoop, this.1, this.2]
    | err reason =>
      have := ih hrest (n + 1)
      simp [criteriaLoop, this.1, this.2]
    | panicOutcome => exact absurd rfl ho

theorem monitorTicks_terminated (ticks : List (List CriterionOutcome × (Nat → Bool))) :
    (monitorTicks true ticks).length = ticks.length ∧
      ∀ r ∈ monitorTicks true ticks,
        r.evaluated = 0 ∧ r.calls = [] ∧ r.termIncs = 0 := by
  induction ticks with
  | nil => exact ⟨rfl, by intro r hr; cases hr⟩
  | cons t rest ih =>
    obtain ⟨os, sr⟩ := t
    simp only [monitorTicks, monitorTick, if_true]
    refine ⟨by simpa using ih.1, ?_⟩
    intro r hr
    rcases List.mem_cons.mp hr with h | h
    · subst h; exact ⟨rfl, rfl, rfl⟩
    · exact ih.2 r h

/-- Claim C1, counterexample: a criterion whose `ShouldTerminate` returns a
non-nil error does NOT make the monitor skip termination for that tick.  With
one criterion returning the error "criterion failure" and a store that
accepts the call, the tick performs a `store.TerminateExperiment` call whose
reason is exactly the error string, and increments the terminations counter:
the claim that an error is treated as "do not terminate this tick" is false. -/
theorem shouldTerminateError_triggersTermination_cex :
    (monitorTick false [CriterionOutcome.err "criterion failure"]
      (fun _ => true)).calls = ["criterion failure"] ∧
    (monitorTick false [CriterionOutcome.err "criterion failure"]
      (fun _ => true)).termIncs = 1 := ⟨rfl, rfl⟩

/-- Claim C1, amended: in `terminator.go` the `error` return of
`ShouldTerminate` IS the termination signal.  A non-nil error return makes
the monitor immediately call `store.TerminateExperiment` with reason
`err.Error()`; a nil return means "do not terminate"; the experiment becomes
marked terminated exactly when the store call succeeds.  There is no separate
logged-and-skipped error outcome. -/
theorem shouldTerminateError_isTheTerminationSignal (reason : String)
    (storeReply : Nat → Bool) :
    (monitorTick false [CriterionOutcome.err reason] storeReply).calls
      = [reason] ∧
    (monitorTick false [CriterionOutcome.ok] storeReply).calls = [] ∧
    (monitorTick false [CriterionOutcome.err reason] storeReply).terminated
      = storeReply 0 := by
  refine ⟨rfl, rfl, ?_⟩
  simp [monitorTick, criteriaLoop]

/-- Claim C2, counterexample: a panic inside a criterion is not caught.  With
a first tick whose only criterion panics, the inner loop aborts
(`monitorSingleExperiment` contains no `recover`), and a second tick that
would have evaluated an ordinary criterion never runs: the monitor does not
keep running. -/
theorem criterionPanic_killsMonitor_cex :
    monitorTicks false
      [([CriterionOutcome.panicOutcome], fun _ => true),
       ([CriterionOutcome.ok], fun _ => true)]
      = [{ calls := [], termIncs := 0, terminated := false, panicked := true,
           evaluated := 1 }] := rfl

/-- Claim C2, amended: a panic inside a criterion is NOT caught — there is no
`recover` anywhere in `terminator.go`.  The panic aborts the tick (criteria
after the panicking one are not evaluated) and kills the inner-loop
goroutine, so no later tick runs; in Go an unrecovered panic then aborts the
whole process, outer loop included. -/
theorem criterionPanic_abortsTickAndGoroutine
    (pre post : List CriterionOutcome) (storeReply : Nat → Bool)
    (rest : List (List CriterionOutcome × (Nat → Bool)))
    (h : CriterionOutcome.panicOutcome ∉ pre) :
    (monitorTick false (pre ++ CriterionOutcome.panicOutcome :: post)
      storeReply).panicked = true ∧
    (monitorTick false (pre ++ CriterionOutcome.panicOutcome :: post)
      storeReply).evaluated = pre.length + 1 ∧
    monitorTicks false
      ((pre ++ CriterionOutcome.panicOutcome :: post, storeReply) :: rest)
      = [monitorTick false (pre ++ CriterionOutcome.panicOutcome :: post)
          storeReply] := by
  have hp := criteriaLoop_panic_aborts storeReply pre post h 0
  have hp1 : (monitorTick false (pre ++ CriterionOutcome.panicOutcome :: post)
      storeReply).panicked = true := by simpa [monitorTick] using hp.1
  refine ⟨hp1, by simpa [monitorTick] using hp.2, ?_⟩
  simp [monitorTicks, hp1]

theorem criterionPanic_abortsTickAndGoroutine_witness :
    CriterionOutcome.panicOutcome ∉ [CriterionOutcome.ok] ∧
    (monitorTick false
      ([CriterionOutcome.ok] ++ CriterionOutcome.panicOutcome :: [])
      (fun _ => true)).panicked = true :=
  ⟨by decide, (criterionPanic_abortsTickAndGoroutine [CriterionOutcome.ok] []
      (fun _ => true) [] (by decide)).1⟩

/-- Claim C4, counterexample: when two configured criteria both fire on the
same tick (both return a non-nil error) and the store accepts both calls, the
inner loop calls `store.TerminateExperiment` twice on that single tick and
increments the "terminations" counter twice — the criteria loop has no
`break` after a successful termination.  "Exactly once ... even when several
configured criteria fire on the same tick" is false. -/
theorem multipleCriteriaFire_multipleCalls_cex :
    (monitorTick false [CriterionOutcome.err "a", CriterionOutcome.err "b"]
      (fun _ => true)).calls.length = 2 ∧
    (monitorTick false [CriterionOutcome.err "a", CriterionOutcome.err "b"]
      (fun _ => true)).termIncs = 2 := ⟨rfl, rfl⟩

/-- Claim C4, amended: within a single tick every criterion that fires
triggers its own `store.TerminateExperiment` call (with its own reason) and,
when the store accepts, its own counter increment, so k firing criteria
produce k calls on that tick; once a tick has completed with the `terminated`
flag set, later ticks perform no call and no increment.  In particular with a
single configured criterion the call and the increment happen exactly once
over the experiment's monitoring lifetime. -/
theorem terminationCalls_perFiringCriterion (rs : List String)
    (outcomes : List CriterionOutcome) (storeReply storeReply2 : Nat → Bool) :
    (monitorTick false (rs.map CriterionOutcome.err) storeReply).calls = rs ∧
    (monitorTick false (rs.map CriterionOutcome.err) (fun _ => true)).termIncs
      = rs.length ∧
    (monitorTick true outcomes storeReply2).calls = [] ∧
    (monitorTick true outcomes storeReply2).termIncs = 0 := by
  refine ⟨?_, ?_, rfl, rfl⟩
  · simpa [monitorTick] using criteriaLoop_calls_map_err storeReply rs 0
  · simpa [monitorTick] using criteriaLoop_termIncs_map_err rs 0

/-- Claim C6, counterexample: on the very tick where termination succeeds the
inner loop does invoke `ShouldTerminate` (and even `TerminateExperiment`)
again.  With two criteria both returning errors and a store accepting every
call, the first call succeeds, yet the second criterion is still evaluated
and a second successful `TerminateExperiment` call is made on the same tick:
"never again invokes ShouldTerminate or TerminateExperiment" after a
successful call is false. -/
theorem evaluationContinues_afterSuccessfulTermination_cex :
    (monitorTick false [CriterionOutcome.err "r1", CriterionOutcome.err "r2"]
      (fun _ => true)).evaluated = 2 ∧
    (monitorTick false [CriterionOutcome.err "r1", CriterionOutcome.err "r2"]
      (fun _ => true)).termIncs = 2 := ⟨rfl, rfl⟩

/-- Claim C6, amended: once the tick on which a termination succeeded has
completed (the `terminated` flag is set), the inner loop never again invokes
`ShouldTerminate` or `TerminateExperiment`: every later tick is a no-op
(`continue`), and the loop does not exit on its own — it processes every tick
until its context is cancelled.  Within the terminating tick itself, criteria
listed after the successful one are still evaluated. -/
theorem terminatedInnerLoop_noopsUntilCancel
    (ticks : List (List CriterionOutcome × (Nat → Bool))) :
    (monitorTicks true ticks).length = ticks.length ∧
      ∀ r ∈ monitorTicks true ticks,
        r.evaluated = 0 ∧ r.calls = [] ∧ r.termIncs = 0 :=
  monitorTicks_terminated ticks

theorem terminatedInnerLoop_noopsUntilCancel_witness :
    (monitorTicks true [([CriterionOutcome.err "x"], fun _ => true),
      ([CriterionOutcome.ok], fun _ => true)]).length = 2 :=
  (terminatedInnerLoop_noopsUntilCancel
    [([CriterionOutcome.err "x"], fun _ => true),
     ([CriterionOutcome.ok], fun _ => true)]).1

/-- The modulus `2^32` of Go `uint32` arithmetic. -/
def UINT32_MOD : Nat := 4294967296

/-- State of the `trackingGauge` helper (`terminator.go` lines 144-148).
`gauge` holds the number last passed to `gauge.Update` (the `float64`
conversion is exact for every value below 2^53, so a `Nat` is faithful);
`value` is the `uint32` counter, always below `UINT32_MOD`. -/
structure TrackingGauge where
  gauge : Nat
  value : Nat
deriving DecidableEq, Repr

/-- `trackingGauge.inc` (`terminator.go` lines 150-152):
`t.gauge.Update(float64(atomic.AddUint32(&t.value, 1)))`; `AddUint32` wraps
modulo 2^32. -/
def TrackingGauge.inc (t : TrackingGauge) : TrackingGauge :=
  let v := (t.value + 1) % UINT32_MOD
  { gauge := v, value := v }

/-- `trackingGauge.dec` (`terminator.go` lines 154-156):
`t.gauge.Update(float64(atomic.AddUint32(&t.value, ^uint32(0))))`; the
bitwise complement `^uint32(0)` is `2^32 - 1`, so dec adds `2^32 - 1`
modulo `2^32`. -/
def TrackingGauge.dec (t : TrackingGauge) : TrackingGauge :=
  let v := (t.value + (UINT32_MOD - 1)) % UINT32_MOD
  { gauge := v, value := v }

/-- Claim C10: the "active monitoring routines" gauge is maintained with
unsigned 32-bit wrapping arithmetic.  `dec` adds `2^32 - 1` modulo `2^32`; a
`dec` immediately after an `inc` restores the prior value; and a `dec`
performed while the counter is 0 makes the gauge report 4294967295 instead
of failing or staying at 0. -/
theorem trackingGauge_wrappingArithmetic (t : TrackingGauge)
    (h : t.value < UINT32_MOD) :
    TrackingGauge.dec t
      = { gauge := (t.value + (UINT32_MOD - 1)) % UINT32_MOD,
          value := (t.value + (UINT32_MOD - 1)) % UINT32_MOD } ∧
    (TrackingGauge.dec (TrackingGauge.inc t)).value = t.value ∧
    (TrackingGauge.dec { gauge := t.gauge, value := 0 }).gauge
      = 4294967295 := by
  refine ⟨rfl, ?_, ?_⟩
  · simp only [TrackingGauge.inc, TrackingGauge.dec, UINT32_MOD] at *
    omega
  · simp only [TrackingGauge.dec, UINT32_MOD]

theorem trackingGauge_wrappingArithmetic_witness :
    (5 : Nat) < UINT32_MOD ∧
      (TrackingGauge.dec (TrackingGauge.inc { gauge := 5, value := 5 })).value
        = 5 :=
  ⟨by decide,
   (trackingGauge_wrappingArithmetic { gauge := 5, value := 5 }
     (by decide)).2.1⟩

/-- An experiment record as the monitor sees it
(`chaos/experimentation/v1` `Experiment`, proto lines 10-37): `id` is the
`fixed64` id, `startTime` stands for the start timestamp (opaque here; the
config payload plays no role in the claims below). -/
structure Experiment where
  id : Nat
  startTime : Nat
deriving DecidableEq, Repr

/-- The spawn loop of `monitorNewExperiments` (`terminator.go` lines 94-106):
for each experiment in `es` whose id is not yet tracked, record the id in
`trackedExperiments` (line 98) and spawn a goroutine (lines 101-104).
Returns the `(iteration index, tracked id)` pairs of the goroutines spawned,
in order; the map insert happens inside the loop, so a duplicate id later in
`es` is already tracked. -/
def spawnLoop (tracked : List Nat) : List Experiment → Nat → List (Nat × Nat)
  | [], _ => []
  | e :: rest, i =>
    if e.id ∈ tracked then spawnLoop tracked rest (i + 1)
    else (i, e.id) :: spawnLoop (tracked ++ [e.id]) rest (i + 1)

/-- Go (pre-1.22) `for ... range` semantics for the closure spawned at
`terminator.go` lines 101-104: the goroutine body references the single
per-loop variable `e` (`for _, e := range es`, line 94), shared by all
iterations.  A goroutine spawned at iteration `i` that only begins running
once the loop has advanced to iteration `j` (any `i ≤ j < es.length`)
therefore reads `es[j]`, not necessarily `es[i]`; the repository predates the
Go 1.22 per-iteration loop variables (it uses `github.com/golang/protobuf/ptypes`). -/
def capturedLoopVar (es : List Experiment) (j : Fin es.length) : Experiment :=
  es.get j

/-- Claim C5 (code bug): on an outer tick returning two new experiments, the
goroutine spawned at iteration 0 is tracked under id 1, but because the
closure captures the shared loop variable `e` by reference, if that goroutine
is only scheduled after the loop's second iteration reassigns `e`, it
monitors the experiment with id 2 — a different experiment returned on the
same tick.  Its `ShouldTerminate` calls then receive experiment 2's start
time and record while terminations are dispatched for id 2, though the
routine is tracked (and cancelled) under id 1. -/
theorem spawnedRoutine_canObserveWrongExperiment_bug :
    spawnLoop []
      [{ id := 1, startTime := 100 }, { id := 2, startTime := 200 }] 0
      = [(0, 1), (1, 2)] ∧
    capturedLoopVar
      [{ id := 1, startTime := 100 }, { id := 2, startTime := 200 }]
      ⟨1, by decide⟩ = { id := 2, startTime := 200 } ∧
    ({ id := 2, startTime := 200 } : Experiment).id ≠ 1 :=
  ⟨rfl, rfl, by decide⟩

/-- State of the outer monitoring loop `Run` (`terminator.go` lines 52-87):
`tracked` is the key set of the `trackedExperiments` map (line 60, ids whose
cancel handle the loop holds), and `live` records one entry per live
inner-loop goroutine as `(experiment id, context cancelled?)`.  `cancel()`
(line 80) only closes the goroutine's context; the goroutine itself stays
live until it observes `ctx.Done()` (line 138), a separate later event. -/
structure MonitorState where
  tracked : List Nat
  live : List (Nat × Bool)
deriving DecidableEq, Repr

/-- Id bookkeeping of `monitorNewExperiments` (`terminator.go` lines 91-108)
on one tick: for each store-returned id not yet tracked, track it and spawn.
Returns `(updated tracked list, ids spawned this tick in order)`. -/
def trackNew : List Nat → List Nat → List Nat × List Nat
  | tracked, [] => (tracked, [])
  | tracked, i :: rest =>
    if i ∈ tracked then trackNew tracked rest
    else ((trackNew (tracked ++ [i]) rest).1,
          i :: (trackNew (tracked ++ [i]) rest).2)

/-- Ids cancelled by the reaping pass of the outer loop (`terminator.go`
lines 78-83): tracked ids that no longer appear in the store's result. -/
def canceledIds (tracked1 ids : List Nat) : List Nat :=
  tracked1.filter (fun i => !decide (i ∈ ids))

/-- One tick of the outer loop (`terminator.go` lines 67-84): first
`monitorNewExperiments` spawns a goroutine for each untracked id returned by
the store, then every tracked id absent from the result is cancelled and
dropped from the map.  Cancelling marks the goroutine's context closed but
does not remove it from `live`. -/
def outerTick (s : MonitorState) (ids : List Nat) : MonitorState :=
  { tracked := (trackNew s.tracked ids).1.filter (fun i => decide (i ∈ ids)),
    live :=
      ((s.live ++ (trackNew s.tracked ids).2.map (fun i => (i, false))).map
        (fun p =>
          if p.1 ∈ canceledIds (trackNew s.tracked ids).1 ids then (p.1, true)
          else p)) }

/-- A cancelled inner goroutine observes `ctx.Done()` (`terminator.go` line
138) at its next `select` and returns.  Only a cancelled goroutine can exit:
the `for`/`select` loop has no other way out.  `k` picks which live
goroutine observes its cancellation; nothing forces this to happen before
any later outer tick. -/
def observeCancel (s : MonitorState) (k : Nat) : MonitorState :=
  if h : k < s.live.length then
    if (s.live.get ⟨k, h⟩).2 then { s with live := s.live.eraseIdx k } else s
  else s

/-- Events of the outer-loop transition system: a store answer consumed by
one outer tick, or one cancelled goroutine observing its cancellation. -/
inductive MonitorEvent where
  | tick : List Nat → MonitorEvent
  | observe : Nat → MonitorEvent
deriving DecidableEq, Repr

def monitorStep (s : MonitorState) : MonitorEvent → MonitorState
  | MonitorEvent.tick ids => outerTick s ids
  | MonitorEvent.observe k => observeCancel s k

/-- A run of the outer loop from process start: fold the events over the
initial state (empty `trackedExperiments` map, no live goroutine;
`terminator.go` line 60). -/
def monitorRun (events : List MonitorEvent) : MonitorState :=
  events.foldl monitorStep { tracked := [], live := [] }

/-- Number of live inner-loop goroutines for experiment id `i`. -/
def liveCount (s : MonitorState) (i : Nat) : Nat :=
  s.live.countP (fun p => decide (p.1 = i))

/-- Number of live inner-loop goroutines for id `i` whose context is not
cancelled. -/
def liveUncanceled (s : MonitorState) (i : Nat) : Nat :=
  s.live.countP (fun p => decide (p.1 = i) && !p.2)

/-- Occurrences of `i` in a list of ids. -/
def occ (l : List Nat) (i : Nat) : Nat := l.countP (fun x => decide (x = i))

theorem occ_append (l₁ l₂ : List Nat) (i : Nat) :
    occ (l₁ ++ l₂) i = occ l₁ i + occ l₂ i := by
  simp [occ]

theorem occ_eq_zero_of_not_mem {l : List Nat} {i : Nat} (h : i ∉ l) :
    occ l i = 0 := by
  rw [occ, List.countP_eq_zero]
  intro a ha
  simp only [decide_eq_true_eq]
  intro hai
  exact h (hai ▸ ha)

theorem occ_cons (a : Nat) (as : List Nat) (i : Nat) :
    occ (a :: as) i = occ as i + if a = i then 1 else 0 := by
  simp [occ, List.countP_cons]

theorem occ_le_one_of_nodup {l : List Nat} (h : l.Nodup) (i : Nat) :
    occ l i ≤ 1 := by
  induction l with
  | nil => simp [occ]
  | cons a as ih =>
    have h1 : a ∉ as := (List.nodup_cons.mp h).1
    have h2 : as.Nodup := (List.nodup_cons.mp h).2
    rw [occ_cons]
    by_cases hai : a = i
    · subst hai
      simp [occ_eq_zero_of_not_mem h1]
    · rw [if_neg hai]
      simpa using ih h2

theorem trackNew_fst (ids : List Nat) :
    ∀ tracked, (trackNew tracked ids).1 = tracked ++ (trackNew tracked ids).2 := by
  induction ids with
  | nil => intro tracked; simp [trackNew]
  | cons i rest ih =>
    intro tracked
    by_cases h : i ∈ tracked
    · simpa [trackNew, h] using ih tracked
    · simp only [trackNew, h, if_neg, ite_false]
      rw [ih (tracked ++ [i])]
      simp

theorem trackNew_nodup (ids : List Nat) :
    ∀ tracked, tracked.Nodup → (trackNew tracked ids).1.Nodup := by
  induction ids with
  | nil => intro tracked h; simpa [trackNew] using h
  | cons i rest ih =>
    intro tracked h
    by_cases hm : i ∈ tracked
    · simpa [trackNew, hm] using ih tracked h
    · have hni : (tracked ++ [i]).Nodup := by
        simp [List.nodup_append, h, hm]
      simpa [trackNew, hm] using ih (tracked ++ [i]) hni

theorem countP_eraseIdx_of_neg {α : Type} (p : α → Bool) :
    ∀ (l : List α) (k : Nat) (h : k < l.length),
      p (l.get ⟨k, h⟩) = false →
        (l.eraseIdx k).countP p = l.countP p := by
  intro l
  induction l with
  | nil => intro k h; simp at h
  | cons a as ih =>
    intro k h hp
    cases k with
    | zero =>
      simp only [List.get] at hp
      simp [List.eraseIdx, List.countP_cons, hp]
    | succ k' =>
      have hk' : k' < as.length := by simpa using h
      have hp' : p (as.get ⟨k', hk'⟩) = false := by simpa [List.get] using hp
      simp only [List.eraseIdx, List.countP_cons]
      rw [ih k' hk' hp']

/-- Invariant tying live non-cancelled goroutines to the tracked map: the
tracked ids are distinct, and for every id the number of live goroutines
whose context is still open equals the number of times the id is tracked. -/
def MonitorInv (s : MonitorState) : Prop :=
  s.tracked.Nodup ∧ ∀ i, liveUncanceled s i = occ s.tracked i

theorem monitorInv_observeCancel {s : MonitorState} (hs : MonitorInv s)
    (k : Nat) : MonitorInv (observeCancel s k) := by
  unfold observeCancel
  split
  · rename_i h
    split
    · rename_i hget
      refine ⟨hs.1, fun i => ?_⟩
      have hgf : (fun p : Nat × Bool => decide (p.1 = i) && !p.2)
          (s.live.get ⟨k, h⟩) = false := by
        simp only [hget, Bool.not_true, Bool.and_false]
      have := countP_eraseIdx_of_neg
        (fun p : Nat × Bool => decide (p.1 = i) && !p.2) s.live k h hgf
      simpa [liveUncanceled, this] using hs.2 i
    · exact hs
  · exact hs

theorem monitorInv_outerTick {s : MonitorState} (hs : MonitorInv s)
    (ids : List Nat) : MonitorInv (outerTick s ids) := by
  constructor
  · exact (trackNew_nodup ids s.tracked hs.1).filter _
  · intro i
    have hq : ∀ p : Nat × Bool,
        ((fun p : Nat × Bool => decide (p.1 = i) && !p.2)
          (if p.1 ∈ canceledIds (trackNew s.tracked ids).1 ids then (p.1, true)
           else p))
        = (if i ∈ canceledIds (trackNew s.tracked ids).1 ids then false
           else decide (p.1 = i) && !p.2) := by
      intro p
      by_cases hp1 : p.1 = i
      · subst hp1
        by_cases hc : p.1 ∈ canceledIds (trackNew s.tracked ids).1 ids
        · simp [hc]
        · simp [hc]
      · by_cases hc : p.1 ∈ canceledIds (trackNew s.tracked ids).1 ids
        · by_cases hic : i ∈ canceledIds (trackNew s.tracked ids).1 ids
          · simp [hc, hic]
          · simp [hc, hic, hp1]
        · by_cases hic : i ∈ canceledIds (trackNew s.tracked ids).1 ids
          · simp [hc, hic, hp1]
          · simp [hc, hic]
    unfold outerTick liveUncanceled
    simp only [List.countP_map]
    rw [show ((fun p : Nat × Bool => decide (p.1 = i) && !p.2) ∘
        (fun p : Nat × Bool =>
          if p.1 ∈ canceledIds (trackNew s.tracked ids).1 ids then (p.1, true)
          else p))
      = (fun p : Nat × Bool =>
          if i ∈ canceledIds (trackNew s.tracked ids).1 ids then false
          else decide (p.1 = i) && !p.2) from funext hq]
    by_cases hic : i ∈ canceledIds (trackNew s.tracked ids).1 ids
    · have hi2 : i ∉ ids := by
        have := List.of_mem_filter hic
        simpa using this
      have : i ∉ (trackNew s.tracked ids).1.filter (fun j => decide (j ∈ ids)) := by
        intro hmem
        exact hi2 (by simpa using List.of_mem_filter hmem)
      simp [hic, occ_eq_zero_of_not_mem this]
    · simp only [hic, if_false, List.countP_append, List.countP_map]
      have hspawn : ((fun p : Nat × Bool => decide (p.1 = i) && !p.2) ∘
          fun j : Nat => (j, false)) = fun j : Nat => decide (j = i) := by
        funext j; simp
      rw [hspawn]
      have hlive : s.live.countP (fun p => decide (p.1 = i) && !p.2)
          = occ s.tracked i := hs.2 i
      by_cases hiids : i ∈ ids
      · have hocc1 : occ ((trackNew s.tracked ids).1.filter
            (fun j => decide (j ∈ ids))) i = occ (trackNew s.tracked ids).1 i := by
          unfold occ
          rw [List.countP_filter]
          congr 1
          funext a
          by_cases ha : a = i
          · subst ha; simp [hiids]
          · simp [ha]
        rw [hocc1, trackNew_fst ids s.tracked, occ_append]
        rw [hlive]
        rfl
      · have hit1 : i ∉ (trackNew s.tracked ids).1 := by
          intro hmem
          exact hic (List.mem_filter.mpr ⟨hmem, by simpa using hiids⟩)
        have hitr : i ∉ s.tracked := by
          intro hmem
          exact hit1 (by rw [trackNew_fst ids s.tracked]; exact List.mem_append_left _ hmem)
        have hisp : i ∉ (trackNew s.tracked ids).2 := by
          intro hmem
          exact hit1 (by rw [trackNew_fst ids s.tracked]; exact List.mem_append_right _ hmem)
        have hflt : i ∉ (trackNew s.tracked ids).1.filter
            (fun j => decide (j ∈ ids)) := by
          intro hmem
          exact hit1 (List.mem_of_mem_filter hmem)
        rw [hlive, occ_eq_zero_of_not_mem hitr, occ_eq_zero_of_not_mem hflt]
        have : occ (trackNew s.tracked ids).2 i = 0 :=
          occ_eq_zero_of_not_mem hisp
        unfold occ at this
        omega

theorem monitorInv_run (events : List MonitorEvent) :
    MonitorInv (monitorRun events) := by
  have main : ∀ s, MonitorInv s → MonitorInv (events.foldl monitorStep s) := by
    induction events with
    | nil => intro s hs; exact hs
    | cons e rest ih =>
      intro s hs
      cases e with
      | tick ids => exact ih _ (monitorInv_outerTick hs ids)
      | observe k => exact ih _ (monitorInv_observeCancel hs k)
  exact main _ ⟨List.nodup_nil, fun i => rfl⟩

/-- Claim C7, counterexample: the store returns id 1, then an empty set, then
id 1 again; the goroutine cancelled on the middle tick has not yet observed
`ctx.Done()` (no observe event occurs), so after the third tick two live
inner-loop goroutines for experiment id 1 coexist — "at most one live
inner-loop evaluation goroutine for that id ... including across ticks where
the id disappears from the store's result and later reappears" is false. -/
theorem duplicateInnerLoop_onReappear_cex :
    liveCount (monitorRun [MonitorEvent.tick [1], MonitorEvent.tick [],
      MonitorEvent.tick [1]]) 1 = 2 := by decide

/-- Claim C7, amended: at every moment there is at most one live inner-loop
goroutine per experiment id whose context is NOT cancelled (equivalently,
one whose cancel handle the outer loop still holds).  When an id disappears
from the store's result its goroutine is cancelled before the id can be
respawned, but the cancelled goroutine may stay live until it observes
`ctx.Done()`, so a cancelled goroutine and a fresh one for the same id can
transiently coexist. -/
theorem atMostOne_uncanceledInnerLoop_perId (events : List MonitorEvent)
    (i : Nat) : liveUncanceled (monitorRun events) i ≤ 1 := by
  have h := monitorInv_run events
  rw [h.2 i]
  exact occ_le_one_of_nodup h.1 i

end Terminator

namespace Rtds

/-- The rtds module configuration fields set by `newTestServer` (rtds test
file lines 198-212); durations are in whole seconds, matching the
`durationpb.Duration{Seconds: 1}` literals of the test.  The fields
`ingressFaultRuntimePfx` and `egressFaultRuntimePfx` stand for the proto
fields `ingress_fault_runtime_prefix` and `egress_fault_runtime_prefix`. -/
structure Config where
  rtdsLayerName : String
  cacheRefreshInterval : Nat
  ingressFaultRuntimePfx : String
  egressFaultRuntimePfx : String
  resourceTtl : Option Nat
  heartbeatInterval : Option Nat
deriving DecidableEq, Repr

/-- The configuration `newTestServer` builds (rtds test file, lines 198-212):
layer "tests", refresh interval 1s, runtime key prefixes "ingress" and
"egress"; when `ttl` is set it adds `ResourceTtl = 1s` AND
`HeartbeatInterval = 1s` (lines 205-212).  The test then asserts that
`New(any, log, scope)` returns no error (line 220) for both values of `ttl`,
and `TestResourceTTL` (lines 339-389) successfully runs the TTL/heartbeat
flow against the resulting server. -/
def newTestServerConfig (ttl : Bool) : Config :=
  { rtdsLayerName := "tests",
    cacheRefreshInterval := 1,
    ingressFaultRuntimePfx := "ingress",
    egressFaultRuntimePfx := "egress",
    resourceTtl := if ttl then some 1 else none,
    heartbeatInterval := if ttl then some 1 else none }

/-- Modelled from the spec: the startup validation that the rtds module's
`New` must perform — `New` itself is not among the sources here, only its
tests are — per "Implementation must guarantee `heartbeat_interval` strictly
less than `resource_ttl` (validate at startup)" and "`heartbeat_interval`:
duration (required iff `resource_ttl` set; must be < ttl)".  Returns `true`
exactly when the configuration satisfies the requirement. -/
def specHeartbeatTtlValid (c : Config) : Bool :=
  match c.resourceTtl, c.heartbeatInterval with
  | none, none => true
  | none, some _ => false
  | some _, none => false
  | some ttl, some hb => decide (hb < ttl)

/-- Claim C3 (code bug): the TTL configuration built by the repository's own
test has `heartbeat_interval` EQUAL to `resource_ttl` (both 1s), which the
spec-mandated startup validation rejects — yet `newTestServer` asserts that
server construction succeeds on exactly this configuration
(`assert.NoError(t, err)` right after `New`, line 220) and `TestResourceTTL`
then exercises the server.  Construction therefore does not fail on
`heartbeat_interval == resource_ttl`: the strict-inequality validation the
claim describes is absent from the code. -/
theorem heartbeatEqualTtl_acceptedByTest_bug :
    (newTestServerConfig true).heartbeatInterval
      = (newTestServerConfig true).resourceTtl ∧
    (newTestServerConfig true).resourceTtl = some 1 ∧
    specHeartbeatTtlValid (newTestServerConfig true) = false :=
  ⟨rfl, rfl, rfl⟩

/-- Protocol variants served by the stream server: the v2 and v3 runtime
discovery services share one state machine; only the message type URLs
differ. -/
inductive XdsProtocol where
  | v2 : XdsProtocol
  | v3 : XdsProtocol
deriving DecidableEq, Repr

/-- Per-protocol counters of the module's metrics scope:
`totalResourcesServed` and `totalErrorsReceived` for the v2 and the v3
service, asserted by `TestServerStats` as `test.v2.*` / `test.v3.*`. -/
structure ServerStats where
  v2ResourcesServed : Nat
  v2ErrorsReceived : Nat
  v3ResourcesServed : Nat
  v3ErrorsReceived : Nat
deriving DecidableEq, Repr

def errorsReceived (p : XdsProtocol) (st : ServerStats) : Nat :=
  match p with
  | XdsProtocol.v2 => st.v2ErrorsReceived
  | XdsProtocol.v3 => st.v3ErrorsReceived

def resourcesServed (p : XdsProtocol) (st : ServerStats) : Nat :=
  match p with
  | XdsProtocol.v2 => st.v2ResourcesServed
  | XdsProtocol.v3 => st.v3ResourcesServed

def bumpErrorsReceived (p : XdsProtocol) (st : ServerStats) : ServerStats :=
  match p with
  | XdsProtocol.v2 => { st with v2ErrorsReceived := st.v2ErrorsReceived + 1 }
  | XdsProtocol.v3 => { st with v3ErrorsReceived := st.v3ErrorsReceived + 1 }

def bumpResourcesServed (p : XdsProtocol) (n : Nat) (st : ServerStats) :
    ServerStats :=
  match p with
  | XdsProtocol.v2 => { st with v2ResourcesServed := st.v2ResourcesServed + n }
  | XdsProtocol.v3 => { st with v3ResourcesServed := st.v3ResourcesServed + n }

/-- A client-to-server StreamRuntime message:
`{version_info, response_nonce, error_detail?}` (subscription fields play no
role in the claims below).  `errorDetail` is `some` exactly when the message
carries a non-empty `error_detail`, as in
`DiscoveryRequest{ErrorDetail: &rpc_status.Status{}}` sent by
`TestServerStats` (lines 277 and 304). -/
structure DiscoveryRequest where
  versionInfo : String
  responseNonce : String
  errorDetail : Option String
deriving DecidableEq, Repr

/-- A named runtime resource before wire wrapping: name plus payload. -/
structure NamedResource where
  name : String
  body : String
deriving DecidableEq, Repr

/-- A resource as put on the wire: `{name, ttl, resource?}`.  When
`resource_ttl` is configured responses wrap each resource this way, and
heartbeat responses omit `resource` (`TestResourceTTL` asserts
`resource.Ttl.Seconds = 1` for both responses and `resource.Resource = nil`
for the heartbeat, lines 373 and 387-388). -/
structure WrappedResource where
  name : String
  ttl : Option Nat
  resource : Option String
deriving DecidableEq, Repr

/-- A server-to-client StreamRuntime message: `{version_info, nonce,
resources}`. -/
structure DiscoveryResponse where
  versionInfo : String
  nonce : String
  resources : List WrappedResource
deriving DecidableEq, Repr

/-- Per-stream protocol state of the stream server: the last version and
nonce sent, the last version the client acknowledged, whether a response is
in flight (`AwaitingAck`), and whether the stream subscribed in the cache. -/
structure StreamState where
  protocol : XdsProtocol
  lastSentVersion : Option String
  lastSentNonce : Option String
  lastAckedVersion : Option String
  awaitingAck : Bool
  subscribed : Bool
deriving DecidableEq, Repr

/-- Modelled from the spec: the per-request step of the stream server's
state machine (the server source is not among the sources here, only its
tests are): (1) a request with non-empty `error_detail` is a NACK — count
it, do not advance `last_acked_version`, return to Idle; (2) a matching
nonce and version is an ACK — record `last_acked_version`; (3) empty nonce
and version is an initial request — subscribe; (4) anything else is stale
and dropped silently.  None of these emits a response by itself. -/
def handleRequest (st : ServerStats) (s : StreamState) (r : DiscoveryRequest) :
    ServerStats × StreamState × Option DiscoveryResponse :=
  if r.errorDetail.isSome then
    (bumpErrorsReceived s.protocol st, { s with awaitingAck := false }, none)
  else if s.lastSentNonce = some r.responseNonce
      ∧ s.lastSentVersion = some r.versionInfo then
    (st, { s with lastAckedVersion := s.lastSentVersion,
                  awaitingAck := false }, none)
  else if r.responseNonce = "" ∧ r.versionInfo = "" then
    (st, { s with subscribed := true }, none)
  else (st, s, none)

/-- Modelled from the spec: resource wrapping — "When TTL is active, each
resource is wrapped as `{ name, ttl, resource? }`; heartbeat responses omit
`resource`"; every emitted resource carries a TTL equal to `resource_ttl`. -/
def wrapResources (resourceTtl : Option Nat) (heartbeat : Bool)
    (rs : List NamedResource) : List WrappedResource :=
  rs.map (fun nr =>
    { name := nr.name, ttl := resourceTtl,
      resource := if heartbeat then none else some nr.body })

/-- Modelled from the spec: the push rule — when Idle and the snapshot
version differs from `last_sent_version`, emit a response with a fresh
nonce, the snapshot version and the wrapped resources, bump the
"resources served" counter by the resource count and move to AwaitingAck;
otherwise emit nothing. -/
def pushRule (cfg : Config) (st : ServerStats) (s : StreamState)
    (snapVersion freshNonce : String) (rs : List NamedResource) :
    ServerStats × StreamState × Option DiscoveryResponse :=
  if ¬ s.awaitingAck ∧ s.lastSentVersion ≠ some snapVersion then
    (bumpResourcesServed s.protocol rs.length st,
     { s with lastSentVersion := some snapVersion,
              lastSentNonce := some freshNonce, awaitingAck := true },
     some { versionInfo := snapVersion, nonce := freshNonce,
            resources := wrapResources cfg.resourceTtl false rs })
  else (st, s, none)

/-- Modelled from the spec: the heartbeat rule (TTL mode only) — when
`heartbeat_interval` elapses and the stream is Idle, re-emit the CURRENT
version with TTL-only resources (body omitted); suppressed while
AwaitingAck; never emitted when `resource_ttl` is not configured. -/
def heartbeatResponse (cfg : Config) (s : StreamState)
    (currentVersion freshNonce : String) (rs : List NamedResource) :
    Option DiscoveryResponse :=
  if cfg.resourceTtl.isSome ∧ ¬ s.awaitingAck then
    some { versionInfo := currentVersion, nonce := freshNonce,
           resources := wrapResources cfg.resourceTtl true rs }
  else none

theorem errorsReceived_bump_self (p : XdsProtocol) (st : ServerStats) :
    errorsReceived p (bumpErrorsReceived p st) = errorsReceived p st + 1 := by
  cases p <;> rfl

theorem errorsReceived_bump_other (p q : XdsProtocol) (st : ServerStats)
    (h : p ≠ q) :
    errorsReceived p (bumpErrorsReceived q st) = errorsReceived p st := by
  cases p <;> cases q <;> first | rfl | exact absurd rfl h

theorem resourcesServed_bumpErrors (p q : XdsProtocol) (st : ServerStats) :
    resourcesServed p (bumpErrorsReceived q st) = resourcesServed p st := by
  cases p <;> cases q <;> rfl

/-- Claim C8: a request with a non-empty `error_detail` (a NACK) increments
the "errors received" counter of the stream's protocol version and no
other counter, leaves `last_acked_version` unchanged, produces no response
itself, leaves both "resources served" counters unchanged, and — the last
sent version still being the current snapshot version — the subsequent push
rule also emits nothing for it. -/
theorem nackRequest_countedNotAcked (cfg : Config) (st : ServerStats)
    (s : StreamState) (r : DiscoveryRequest)
    (snapVersion freshNonce : String) (rs : List NamedResource)
    (herr : r.errorDetail.isSome)
    (hsent : s.lastSentVersion = some snapVersion) :
    (handleRequest st s r).2.2 = none ∧
    (handleRequest st s r).2.1.lastAckedVersion = s.lastAckedVersion ∧
    errorsReceived s.protocol (handleRequest st s r).1
      = errorsReceived s.protocol st + 1 ∧
    (∀ p, p ≠ s.protocol →
      errorsReceived p (handleRequest st s r).1 = errorsReceived p st) ∧
    (∀ p, resourcesServed p (handleRequest st s r).1 = resourcesServed p st) ∧
    (pushRule cfg (handleRequest st s r).1 (handleRequest st s r).2.1
      snapVersion freshNonce rs).2.2 = none := by
  have hH : handleRequest st s r
      = (bumpErrorsReceived s.protocol st,
         { s with awaitingAck := false }, none) := by
    unfold handleRequest
    rw [if_pos herr]
  refine ⟨by rw [hH], by rw [hH], ?_, ?_, ?_, ?_⟩
  · rw [hH]
    exact errorsReceived_bump_self s.protocol st
  · intro p hp
    rw [hH]
    exact errorsReceived_bump_other p s.protocol st hp
  · intro p
    rw [hH]
    exact resourcesServed_bumpErrors p s.protocol st
  · rw [hH]
    simp [pushRule, hsent]

/-- The scope state `TestServerStats` reaches after the first exchange on
each protocol: one resource served, no error received (lines 273-274 and
301). -/
def statsAfterFirstPush : ServerStats :=
  { v2ResourcesServed := 1, v2ErrorsReceived := 0,
    v3ResourcesServed := 1, v3ErrorsReceived := 0 }

/-- A v3 stream that has sent version "v1" with nonce "1" and awaits the
acknowledgement. -/
def awaitingStream : StreamState :=
  { protocol := XdsProtocol.v3, lastSentVersion := some "v1",
    lastSentNonce := some "1", lastAckedVersion := none,
    awaitingAck := true, subscribed := true }

/-- The NACK `TestServerStats` sends:
`DiscoveryRequest{ErrorDetail: &rpc_status.Status{}}` (line 277). -/
def nackReq : DiscoveryRequest :=
  { versionInfo := "", responseNonce := "", errorDetail := some "bad" }

/-- A v3 stream that has sent version "v1" with nonce "1" and has seen it
acknowledged (Idle). -/
def idleStream : StreamState :=
  { protocol := XdsProtocol.v3, lastSentVersion := some "v1",
    lastSentNonce := some "1", lastAckedVersion := some "v1",
    awaitingAck := false, subscribed := true }

theorem nackRequest_countedNotAcked_witness :
    (nackReq.errorDetail.isSome
      ∧ awaitingStream.lastSentVersion = some "v1") ∧
    errorsReceived XdsProtocol.v3
      (handleRequest statsAfterFirstPush awaitingStream nackReq).1 = 1 :=
  ⟨⟨rfl, rfl⟩,
   (nackRequest_countedNotAcked (newTestServerConfig false)
      statsAfterFirstPush awaitingStream nackReq "v1" "2" [] rfl rfl).2.2.1⟩

/-- Claim C9: when `resource_ttl` is configured, every resource in every
emitted response carries a TTL equal to `resource_ttl`: a content push
emitted by the push rule carries the snapshot version and resources with
non-nil bodies, all with that TTL, and a heartbeat response re-emits the
current version with every resource body omitted (nil), again with that
TTL. -/
theorem ttlOnEveryResource_heartbeatOmitsBody (cfg : Config) (d : Nat)
    (s : StreamState) (snapVersion currentVersion freshNonce : String)
    (rs : List NamedResource)
    (hd : cfg.resourceTtl = some d)
    (hidle : s.awaitingAck = false) :
    (∀ st resp,
      (pushRule cfg st s snapVersion freshNonce rs).2.2 = some resp →
        resp.versionInfo = snapVersion ∧
        ∀ w ∈ resp.resources, w.ttl = some d ∧ w.resource.isSome) ∧
    heartbeatResponse cfg s currentVersion freshNonce rs
      = some { versionInfo := currentVersion, nonce := freshNonce,
               resources := wrapResources cfg.resourceTtl true rs } ∧
    (∀ w ∈ wrapResources cfg.resourceTtl true rs,
      w.ttl = some d ∧ w.resource = none) := by
  refine ⟨?_, ?_, ?_⟩
  · intro st resp hresp
    unfold pushRule at hresp
    split at hresp
    · rw [Option.some_inj] at hresp
      subst hresp
      refine ⟨rfl, ?_⟩
      intro w hw
      simp only [wrapResources, List.mem_map] at hw
      obtain ⟨nr, _, rfl⟩ := hw
      simp [hd]
    · cases hresp
  · simp [heartbeatResponse, hd, hidle]
  · intro w hw
    simp only [wrapResources, List.mem_map] at hw
    obtain ⟨nr, _, rfl⟩ := hw
    simp [hd]

/-- A sample named resource for the witness. -/
def sampleResource : NamedResource := { name := "tests", body := "faults" }

/-- The heartbeat the witness expects: current version, TTL 1, body
omitted. -/
def expectedHeartbeat : DiscoveryResponse :=
  { versionInfo := "v1", nonce := "2",
    resources := [{ name := "tests", ttl := some 1, resource := none }] }

theorem ttlOnEveryResource_heartbeatOmitsBody_witness :
    ((newTestServerConfig true).resourceTtl = some 1
      ∧ idleStream.awaitingAck = false) ∧
    heartbeatResponse (newTestServerConfig true) idleStream
      "v1" "2" [sampleResource] = some expectedHeartbeat :=
  ⟨⟨rfl, rfl⟩,
   (ttlOnEveryResource_heartbeatOmitsBody (newTestServerConfig true) 1
      idleStream "v2snap" "v1" "2" [sampleResource] rfl rfl).2.1⟩

end Rtds
